import Mathlib

/-!
Shallow embedding of the panicwrap library (mitchellh/panicwrap).

The embedding models `Wrap` from panicwrap.go together with the stderr
scanning goroutine it spawns, the signal-capturing goroutine, and the
helper `verifyPanic`.  Bytes are modelled as natural numbers, the child's
stderr output as the list of chunks successively returned by reads of the
stderr pipe, and the concurrent scanning goroutine as a fold over those
chunks (the goroutine consumes the whole stream before `Wrap` inspects
its result, which is the sequential semantics of draining the pipe to
end-of-stream).
-/

namespace Panicwrap

/-- Bytes of an ASCII string, each character as its code point. -/
def strBytes (s : String) : List Nat := s.data.map Char.toNat

/-- Default cookie key (panicwrap.go, DEFAULT_COOKIE_KEY). -/
def DEFAULT_COOKIE_KEY : String := "cccf35992f8f3cd8d1d28f0109dd953e26664531"

/-- Default cookie value (panicwrap.go, DEFAULT_COOKIE_VAL). -/
def DEFAULT_COOKIE_VAL : String := "7c28215aca87789f95b406b8dd91aa5198406750"

/-- Go's `bytes.Index`: index of the first occurrence of `pat` in `s` as a
contiguous block, `none` when absent (Go returns -1). -/
def bytesIndex (pat : List Nat) (s : List Nat) : Option Nat :=
  match s with
  | [] => if pat.isPrefixOf s then some 0 else none
  | _ :: rest =>
    if pat.isPrefixOf s then some 0
    else (bytesIndex pat rest).map (· + 1)

/-- The diagnostic marker scanned for on stderr: `[]byte("panic:")`. -/
def panicHeader : List Nat := strBytes "panic:"

/-- The verification token: `[]byte("goroutine ")`. -/
def goroutineToken : List Nat := strBytes "goroutine "

/-- panicwrap.go, `verifyPanic`: true iff the bytes contain "goroutine ". -/
def verifyPanic (p : List Nat) : Bool :=
  (bytesIndex goroutineToken p).isSome

/-- State of the stderr-watching goroutine: the accumulating candidate
buffer `panicText`, the `verified` flag, and `out`, the bytes written so
far to the real `os.Stderr`. -/
structure ScanState where
  panicText : List Nat
  verified : Bool
  out : List Nat
deriving DecidableEq, Repr

/-- One pass of the goroutine's inner loop with an empty `panicText`
(the idle branch, panicwrap.go lines 532-542): look for "panic:"; when
found, the bytes from the match onward start the candidate buffer and the
bytes before it are forwarded; otherwise the whole buffer is forwarded. -/
def idleScan (verified : Bool) (out inspectBuf : List Nat) : ScanState :=
  match bytesIndex panicHeader inspectBuf with
  | some idx => ⟨inspectBuf.drop idx, verified, out ++ inspectBuf.take idx⟩
  | none => ⟨[], verified, out ++ inspectBuf⟩

/-- The goroutine's inner `for len(inspectBuf) > 0` loop (panicwrap.go
lines 531-567) on one read result.  With a non-empty candidate that has
exceeded 512 bytes and is still unverified, the candidate is checked with
`verifyPanic`; on failure the candidate and the fresh bslice are
concatenated, the leading `len("panic:")` bytes are forwarded, and the
remainder is re-scanned from the idle branch (`continue` in the source).
Otherwise the fresh bytes are appended to the candidate. -/
def processInspect (panicText : List Nat) (verified : Bool)
    (out inspectBuf : List Nat) : ScanState :=
  if inspectBuf.isEmpty then ⟨panicText, verified, out⟩
  else if panicText.isEmpty then idleScan verified out inspectBuf
  else if verified = false ∧ 512 < panicText.length then
    if verifyPanic panicText then ⟨panicText ++ inspectBuf, true, out⟩
    else
      idleScan false (out ++ (panicText ++ inspectBuf).take panicHeader.length)
        ((panicText ++ inspectBuf).drop panicHeader.length)
  else ⟨panicText ++ inspectBuf, verified, out⟩

/-- Processing of one successful read from the stderr pipe. -/
def processChunk (st : ScanState) (chunk : List Nat) : ScanState :=
  processInspect st.panicText st.verified st.out chunk

/-- Scanner state at goroutine start. -/
def initScan : ScanState := ⟨[], false, []⟩

/-- The stderr-watching goroutine run to end-of-stream over the chunks
delivered by successive reads of the pipe. -/
def runScanner (chunks : List (List Nat)) : ScanState :=
  chunks.foldl processChunk initScan

/-- Errors `Wrap` can return. -/
inductive GoErr where
  | handlerNotSet
  | exeFailed
  | startFailed
  | waitFailed
deriving DecidableEq, Repr

/-- Inputs determining one run of `Wrap`: the configuration, the process
environment, whether executable resolution and `cmd.Start` succeed,
whether `cmd.Wait` fails with a non-exit error, the child's exit status,
and the chunks the child writes on stderr. -/
structure WrapInput where
  handlerSet : Bool
  cookieKey : String
  cookieValue : String
  env : List (String × String)
  exeOk : Bool
  startOk : Bool
  waitFailed : Bool
  exitStatus : Int
  chunks : List (List Nat)

/-- Observable outcome of one `Wrap` run: the returned int and error, the
arguments passed to the handler in order, the bytes written to the real
stderr, whether a child process was started, and whether the run took the
cookie-matched early return (the "I am the child" branch). -/
structure WrapOutput where
  ret : Int
  err : Option GoErr
  handlerCalls : List (List Nat)
  stderrOut : List Nat
  spawned : Bool
  wasChild : Bool
deriving DecidableEq, Repr

/-- Go's `os.Getenv`: the bound value, or the empty string when unset. -/
def getenv (env : List (String × String)) (key : String) : String :=
  match env.find? (fun p => p.1 = key) with
  | some p => p.2
  | none => ""

/-- The effective cookie key after defaulting (panicwrap.go lines 482-484). -/
def effKey (c : WrapInput) : String :=
  if c.cookieKey = "" then DEFAULT_COOKIE_KEY else c.cookieKey

/-- The effective cookie value after defaulting (panicwrap.go lines 486-488). -/
def effVal (c : WrapInput) : String :=
  if c.cookieValue = "" then DEFAULT_COOKIE_VAL else c.cookieValue

/-- panicwrap.go, `Wrap` (lines 477-626): nil-handler check, cookie
identity guard, executable resolution, spawn, concurrent scan of the
child's stderr, wait, and the handler decision.  `cmd.Wait` returns a
nil error exactly when the child exits with status 0; a non-`ExitError`
failure is `waitFailed`.  The deferred function flushes a leftover
candidate buffer to the real stderr on every return path reached after
the pipe is created. -/
def Wrap (c : WrapInput) : WrapOutput :=
  if c.handlerSet = false then
    ⟨-1, some GoErr.handlerNotSet, [], [], false, false⟩
  else if getenv c.env (effKey c) = effVal c then
    ⟨-1, none, [], [], false, true⟩
  else if c.exeOk = false then
    ⟨-1, some GoErr.exeFailed, [], [], false, false⟩
  else if c.startOk = false then
    ⟨1, some GoErr.startFailed, [], [], false, false⟩
  else
    let st := runScanner c.chunks
    if c.waitFailed then
      ⟨1, some GoErr.waitFailed, [], st.out ++ st.panicText, true, false⟩
    else if c.exitStatus ≠ 0 then
      if st.panicText.isEmpty then
        ⟨c.exitStatus, none, [], st.out, true, false⟩
      else
        ⟨c.exitStatus, none, [st.panicText], st.out, true, false⟩
    else
      ⟨0, none, [], st.out ++ st.panicText, true, false⟩

/-- Events observed by the signal-capturing goroutine (panicwrap.go lines
591-602): an interruption signal arriving on `sigCh`, or `stderrDone`
closing after the child has exited and the stream is fully drained. -/
inductive SigEvent where
  | interrupt
  | childDone
deriving DecidableEq, Repr

/-- The signal goroutine: a `select` loop that returns when `stderrDone`
closes and otherwise receives a signal and does nothing with it.  The
result is the list of signals the supervisor sends to the child process
and whether the supervisor terminated itself in response to a signal. -/
def signalLoop : List SigEvent → List Unit × Bool
  | [] => ([], false)
  | SigEvent.childDone :: _ => ([], false)
  | SigEvent.interrupt :: rest => signalLoop rest

/-! ### Basic lemmas about the string search -/

theorem bytesIndex_eq_none_iff (pat s : List Nat) :
    bytesIndex pat s = none ↔ ¬ pat <:+: s := by
  induction s with
  | nil =>
    rcases pat with _ | ⟨a, as⟩
    · simp [bytesIndex]
    · simp [bytesIndex, List.isPrefixOf_iff_prefix]
  | cons b rest ih =>
    by_cases hp : pat.isPrefixOf (b :: rest)
    · have hpre : pat <+: b :: rest := List.isPrefixOf_iff_prefix.mp hp
      simp [bytesIndex, hp, List.infix_cons_iff, hpre]
    · have hpre : ¬ pat <+: b :: rest := by
        intro hc
        exact hp (List.isPrefixOf_iff_prefix.mpr hc)
      simp [bytesIndex, hp, Option.map_eq_none', ih, List.infix_cons_iff, hpre]

theorem bytesIndex_isSome_iff (pat s : List Nat) :
    (bytesIndex pat s).isSome = true ↔ pat <:+: s := by
  rw [Option.isSome_iff_ne_none, Ne, bytesIndex_eq_none_iff, not_not]

theorem verifyPanic_eq_true_iff (p : List Nat) :
    verifyPanic p = true ↔ goroutineToken <:+: p := by
  unfold verifyPanic
  exact bytesIndex_isSome_iff goroutineToken p

/-! ### Byte conservation through the scanner -/

theorem idleScan_conserve (v : Bool) (o buf : List Nat) :
    (idleScan v o buf).out ++ (idleScan v o buf).panicText = o ++ buf := by
  unfold idleScan
  cases h : bytesIndex panicHeader buf <;> simp

theorem idleScan_verified (v : Bool) (o buf : List Nat) :
    (idleScan v o buf).verified = v := by
  unfold idleScan
  cases h : bytesIndex panicHeader buf <;> simp

theorem processInspect_conserve (p : List Nat) (v : Bool) (o buf : List Nat) :
    (processInspect p v o buf).out ++ (processInspect p v o buf).panicText =
      o ++ p ++ buf := by
  unfold processInspect
  by_cases hb : buf.isEmpty
  · have : buf = [] := by simpa [List.isEmpty_iff] using hb
    simp [hb, this]
  · simp only [hb, if_false, Bool.false_eq_true]
    by_cases hp : p.isEmpty
    · have hp' : p = [] := by simpa [List.isEmpty_iff] using hp
      simp [hp, hp', idleScan_conserve]
    · simp only [hp, if_false, Bool.false_eq_true]
      by_cases hc : v = false ∧ 512 < p.length
      · rw [if_pos hc]
        by_cases hv : verifyPanic p
        · simp [hv]
        · rw [if_neg hv, idleScan_conserve, List.append_assoc,
            List.take_append_drop, ← List.append_assoc]
      · simp [hc]

theorem foldl_processChunk_conserve (chunks : List (List Nat)) :
    ∀ st : ScanState,
      (chunks.foldl processChunk st).out ++ (chunks.foldl processChunk st).panicText =
        st.out ++ st.panicText ++ chunks.flatten := by
  induction chunks with
  | nil => intro st; simp
  | cons ch rest ih =>
    intro st
    rw [List.foldl_cons, ih (processChunk st ch)]
    have h := processInspect_conserve st.panicText st.verified st.out ch
    simp only [processChunk]
    rw [h]
    simp [List.append_assoc]

theorem runScanner_conserve (chunks : List (List Nat)) :
    (runScanner chunks).out ++ (runScanner chunks).panicText = chunks.flatten := by
  have h := foldl_processChunk_conserve chunks initScan
  simpa [runScanner, initScan] using h

/-! ### Scanning a stream whose chunks are marker-free -/

theorem processChunk_no_marker (o : List Nat) (ch : List Nat)
    (h : bytesIndex panicHeader ch = none) :
    processChunk ⟨[], false, o⟩ ch = ⟨[], false, o ++ ch⟩ := by
  by_cases hb : ch.isEmpty
  · have : ch = [] := by simpa [List.isEmpty_iff] using hb
    simp [processChunk, processInspect, this]
  · simp [processChunk, processInspect, hb, idleScan, h]

theorem foldl_no_marker (chunks : List (List Nat)) :
    ∀ o : List Nat, (∀ ch ∈ chunks, bytesIndex panicHeader ch = none) →
      chunks.foldl processChunk ⟨[], false, o⟩ = ⟨[], false, o ++ chunks.flatten⟩ := by
  induction chunks with
  | nil => intro o _; simp
  | cons ch rest ih =>
    intro o h
    rw [List.foldl_cons, processChunk_no_marker o ch (h ch (by simp)),
      ih (o ++ ch) (fun x hx => h x (by simp [hx]))]
    simp

theorem runScanner_no_marker (chunks : List (List Nat))
    (h : ∀ ch ∈ chunks, bytesIndex panicHeader ch = none) :
    runScanner chunks = ⟨[], false, chunks.flatten⟩ := by
  have := foldl_no_marker chunks [] h
  simpa [runScanner, initScan] using this

theorem chunk_no_marker_of_flatten (chunks : List (List Nat))
    (h : bytesIndex panicHeader chunks.flatten = none) :
    ∀ ch ∈ chunks, bytesIndex panicHeader ch = none := by
  intro ch hch
  rw [bytesIndex_eq_none_iff] at h ⊢
  intro hc
  exact h (hc.trans (List.infix_of_mem_flatten hch))

/-! ### Branch characterizations of Wrap -/

theorem Wrap_noHandler (c : WrapInput) (h : c.handlerSet = false) :
    Wrap c = ⟨-1, some GoErr.handlerNotSet, [], [], false, false⟩ := by
  simp [Wrap, h]

theorem Wrap_child (c : WrapInput) (h1 : c.handlerSet = true)
    (h2 : getenv c.env (effKey c) = effVal c) :
    Wrap c = ⟨-1, none, [], [], false, true⟩ := by
  simp [Wrap, h1, h2]

theorem Wrap_noExe (c : WrapInput) (h1 : c.handlerSet = true)
    (h2 : getenv c.env (effKey c) ≠ effVal c) (h3 : c.exeOk = false) :
    Wrap c = ⟨-1, some GoErr.exeFailed, [], [], false, false⟩ := by
  simp [Wrap, h1, h2, h3]

theorem Wrap_noStart (c : WrapInput) (h1 : c.handlerSet = true)
    (h2 : getenv c.env (effKey c) ≠ effVal c) (h3 : c.exeOk = true)
    (h4 : c.startOk = false) :
    Wrap c = ⟨1, some GoErr.startFailed, [], [], false, false⟩ := by
  simp [Wrap, h1, h2, h3, h4]

theorem Wrap_waitFailed (c : WrapInput) (h1 : c.handlerSet = true)
    (h2 : getenv c.env (effKey c) ≠ effVal c) (h3 : c.exeOk = true)
    (h4 : c.startOk = true) (h5 : c.waitFailed = true) :
    Wrap c = ⟨1, some GoErr.waitFailed, [],
      (runScanner c.chunks).out ++ (runScanner c.chunks).panicText, true, false⟩ := by
  simp [Wrap, h1, h2, h3, h4, h5]

theorem Wrap_exit_panic (c : WrapInput) (h1 : c.handlerSet = true)
    (h2 : getenv c.env (effKey c) ≠ effVal c) (h3 : c.exeOk = true)
    (h4 : c.startOk = true) (h5 : c.waitFailed = false)
    (h6 : c.exitStatus ≠ 0) (h7 : (runScanner c.chunks).panicText ≠ []) :
    Wrap c = ⟨c.exitStatus, none, [(runScanner c.chunks).panicText],
      (runScanner c.chunks).out, true, false⟩ := by
  have h7' : (runScanner c.chunks).panicText.isEmpty = false := by
    simpa [List.isEmpty_iff] using h7
  simp [Wrap, h1, h2, h3, h4, h5, h6, h7']

theorem Wrap_exit_clean (c : WrapInput) (h1 : c.handlerSet = true)
    (h2 : getenv c.env (effKey c) ≠ effVal c) (h3 : c.exeOk = true)
    (h4 : c.startOk = true) (h5 : c.waitFailed = false)
    (h6 : c.exitStatus ≠ 0) (h7 : (runScanner c.chunks).panicText = []) :
    Wrap c = ⟨c.exitStatus, none, [], (runScanner c.chunks).out, true, false⟩ := by
  have h7' : (runScanner c.chunks).panicText.isEmpty = true := by
    simp [List.isEmpty_iff, h7]
  simp [Wrap, h1, h2, h3, h4, h5, h6, h7']

theorem Wrap_exit_zero (c : WrapInput) (h1 : c.handlerSet = true)
    (h2 : getenv c.env (effKey c) ≠ effVal c) (h3 : c.exeOk = true)
    (h4 : c.startOk = true) (h5 : c.waitFailed = false)
    (h6 : c.exitStatus = 0) :
    Wrap c = ⟨0, none, [],
      (runScanner c.chunks).out ++ (runScanner c.chunks).panicText, true, false⟩ := by
  simp [Wrap, h1, h2, h3, h4, h5, h6]

theorem bool_ne_false (b : Bool) (h : ¬ b = false) : b = true := by
  cases b
  · exact absurd rfl h
  · rfl

theorem bool_ne_true (b : Bool) (h : ¬ b = true) : b = false := by
  cases b
  · rfl
  · exact absurd rfl h

/-- Effective cookie value is never the empty string, so an unset
environment variable (which reads as "") can never match it. -/
theorem effVal_ne_empty (c : WrapInput) : effVal c ≠ "" := by
  unfold effVal
  by_cases h : c.cookieValue = ""
  · rw [if_pos h]; decide
  · rw [if_neg h]; exact h

/-! ### Concrete runs used as counterexamples and witnesses -/

/-- A child that writes a short marker-bearing line with no verification
token and exits with status 1. -/
def c1cex : WrapInput where
  handlerSet := true
  cookieKey := "k"
  cookieValue := "v"
  env := []
  exeOk := true
  startOk := true
  waitFailed := false
  exitStatus := 1
  chunks := [strBytes "panic: nope"]

/-- A child that writes a short marker-bearing line and exits with status 0. -/
def c1wit : WrapInput where
  handlerSet := true
  cookieKey := "k"
  cookieValue := "v"
  env := []
  exeOk := true
  startOk := true
  waitFailed := false
  exitStatus := 0
  chunks := [strBytes "panic: zero"]

/-- A child that writes ordinary output and then a marker, exiting 1. -/
def c2wit : WrapInput where
  handlerSet := true
  cookieKey := "k"
  cookieValue := "v"
  env := []
  exeOk := true
  startOk := true
  waitFailed := false
  exitStatus := 1
  chunks := [strBytes "log ", strBytes "panic: x"]

/-- A child that writes a short token-free candidate and exits with status 2. -/
def c3cex : WrapInput where
  handlerSet := true
  cookieKey := "k"
  cookieValue := "v"
  env := []
  exeOk := true
  startOk := true
  waitFailed := false
  exitStatus := 2
  chunks := [strBytes "panic: boom"]

/-- A child that writes a short token-free candidate and exits with status 3. -/
def c3wit : WrapInput where
  handlerSet := true
  cookieKey := "k"
  cookieValue := "v"
  env := []
  exeOk := true
  startOk := true
  waitFailed := false
  exitStatus := 3
  chunks := [strBytes "panic: part"]

/-! ### Claim C1 -/

/-- Claim C1, counterexample: on a run whose child writes "panic: nope"
(a candidate that is never verified and does not contain the verification
token) and exits with status 1, the handler is nonetheless invoked, so
"invoked only if the candidate was verified (or the end-of-stream
special case confirms the token)" fails on the code. -/
theorem C1_counterexample :
    (Wrap c1cex).handlerCalls = [strBytes "panic: nope"] ∧
    (runScanner c1cex.chunks).verified = false ∧
    verifyPanic (runScanner c1cex.chunks).panicText = false ∧
    c1cex.exitStatus ≠ 0 := by decide

/-- Claim C1, amended: the handler is invoked at most once per run, with
the captured candidate bytes, and only when a candidate is still held at
end of stream (whether verified or not — no token re-check is performed)
and the child's exit status is non-zero; if a candidate was captured but
the child exited with status zero, the handler is not invoked and the
captured bytes are flushed to the real error stream after the forwarded
output. -/
theorem C1_amended (c : WrapInput) :
    (Wrap c).handlerCalls.length ≤ 1 ∧
    ((Wrap c).handlerCalls ≠ [] →
      (Wrap c).handlerCalls = [(runScanner c.chunks).panicText] ∧
      (runScanner c.chunks).panicText ≠ [] ∧
      c.waitFailed = false ∧ ¬ c.exitStatus = 0) ∧
    ((Wrap c).spawned = true → c.waitFailed = false → c.exitStatus = 0 →
      (Wrap c).handlerCalls = [] ∧
      (Wrap c).stderrOut =
        (runScanner c.chunks).out ++ (runScanner c.chunks).panicText) := by
  by_cases h1 : c.handlerSet = false
  · rw [Wrap_noHandler c h1]; simp
  · have h1' := bool_ne_false _ fun hc => h1 (by simpa using hc)
    by_cases h2 : getenv c.env (effKey c) = effVal c
    · rw [Wrap_child c h1' h2]; simp
    · by_cases h3 : c.exeOk = false
      · rw [Wrap_noExe c h1' h2 h3]; simp
      · have h3' := bool_ne_false _ h3
        by_cases h4 : c.startOk = false
        · rw [Wrap_noStart c h1' h2 h3' h4]; simp
        · have h4' := bool_ne_false _ h4
          by_cases h5 : c.waitFailed
          · rw [Wrap_waitFailed c h1' h2 h3' h4' h5]; simp [h5]
          · have h5' := bool_ne_true _ h5
            by_cases h6 : c.exitStatus = 0
            · rw [Wrap_exit_zero c h1' h2 h3' h4' h5' h6]; simp
            · by_cases h7 : (runScanner c.chunks).panicText = []
              · rw [Wrap_exit_clean c h1' h2 h3' h4' h5' h6 h7]; simp [h6]
              · rw [Wrap_exit_panic c h1' h2 h3' h4' h5' h6 h7]
                simp [h5', h6, h7]

/-- Claim C1, witness for the amended statement: the zero-exit run
`c1wit` captured a candidate, the handler is not invoked, and the
captured bytes are flushed to the real error stream. -/
theorem C1_witness :
    (Wrap c1wit).handlerCalls = [] ∧
    (Wrap c1wit).stderrOut =
      (runScanner c1wit.chunks).out ++ (runScanner c1wit.chunks).panicText :=
  (C1_amended c1wit).2.2 (by decide) (by decide) (by decide)

/-! ### Claim C2 -/

/-- Claim C2: over a whole supervised run, the bytes written to the real
error stream followed by the bytes of the diagnostic events delivered to
the handler are exactly the child's error-stream bytes in original
order, for every way the stream is split into chunks — no byte is both
forwarded and captured, none is dropped, none is duplicated. -/
theorem C2_byte_partition (c : WrapInput) (h1 : c.handlerSet = true)
    (h2 : getenv c.env (effKey c) ≠ effVal c) (h3 : c.exeOk = true)
    (h4 : c.startOk = true) :
    (Wrap c).stderrOut ++ ((Wrap c).handlerCalls).flatten = c.chunks.flatten := by
  have hcons := runScanner_conserve c.chunks
  by_cases h5 : c.waitFailed
  · rw [Wrap_waitFailed c h1 h2 h3 h4 h5]; simpa using hcons
  · have h5' := bool_ne_true _ h5
    by_cases h6 : c.exitStatus = 0
    · rw [Wrap_exit_zero c h1 h2 h3 h4 h5' h6]; simpa using hcons
    · by_cases h7 : (runScanner c.chunks).panicText = []
      · rw [Wrap_exit_clean c h1 h2 h3 h4 h5' h6 h7]
        rw [h7] at hcons; simpa using hcons
      · rw [Wrap_exit_panic c h1 h2 h3 h4 h5' h6 h7]; simpa using hcons

/-- Claim C2, witness: the partition equation evaluated on the concrete
run `c2wit`. -/
theorem C2_witness :
    (Wrap c2wit).stderrOut ++ ((Wrap c2wit).handlerCalls).flatten =
      c2wit.chunks.flatten :=
  C2_byte_partition c2wit (by decide) (by decide) (by decide) (by decide)

/-! ### Claim C3 -/

/-- Claim C3, counterexample: the child writes "panic: boom" — the stream
ends while the scanner is still capturing fewer than window bytes, the
full candidate does not contain the verification token — yet on exit
status 2 the candidate is handed to the handler, so "surfaced only when
... the verification token is found by a re-check" fails on the code. -/
theorem C3_counterexample :
    (runScanner c3cex.chunks).verified = false ∧
    (runScanner c3cex.chunks).panicText ≠ [] ∧
    (runScanner c3cex.chunks).panicText.length ≤ 512 ∧
    verifyPanic (runScanner c3cex.chunks).panicText = false ∧
    (Wrap c3cex).handlerCalls = [(runScanner c3cex.chunks).panicText] := by decide

/-- Claim C3, amended: if the stream ends while the scanner is still
Capturing with fewer than window bytes accumulated, the partial
candidate is surfaced to the handler whenever the child's exit status is
non-zero — no re-check of the verification token is performed — and is
forwarded to the real error stream as ordinary text when the run
concludes with status zero. -/
theorem C3_amended (c : WrapInput) (h1 : c.handlerSet = true)
    (h2 : getenv c.env (effKey c) ≠ effVal c) (h3 : c.exeOk = true)
    (h4 : c.startOk = true)
    (hcap : (runScanner c.chunks).panicText ≠ [])
    (hlen : (runScanner c.chunks).panicText.length ≤ 512)
    (hv : (runScanner c.chunks).verified = false) :
    (c.waitFailed = false → ¬ c.exitStatus = 0 →
      (Wrap c).handlerCalls = [(runScanner c.chunks).panicText] ∧
      (Wrap c).ret = c.exitStatus) ∧
    (c.waitFailed = false → c.exitStatus = 0 →
      (Wrap c).handlerCalls = [] ∧
      (Wrap c).stderrOut =
        (runScanner c.chunks).out ++ (runScanner c.chunks).panicText) := by
  constructor
  · intro h5 h6
    rw [Wrap_exit_panic c h1 h2 h3 h4 h5 h6 hcap]
    simp
  · intro h5 h6
    rw [Wrap_exit_zero c h1 h2 h3 h4 h5 h6]
    simp

/-- Claim C3, witness for the amended statement: on run `c3wit` (token-free
partial candidate, exit status 3) the handler receives the candidate and
the exit status is propagated. -/
theorem C3_witness :
    (Wrap c3wit).handlerCalls = [(runScanner c3wit.chunks).panicText] ∧
    (Wrap c3wit).ret = c3wit.exitStatus :=
  (C3_amended c3wit (by decide) (by decide) (by decide) (by decide) (by decide)
    (by decide) (by decide)).1 (by decide) (by decide)

/-! ### Claim C4 -/

set_option maxRecDepth 100000

/-- A stream where the verification token first appears after byte 512 of
the candidate block: the candidate is 106 bytes after the first chunk,
616 bytes after the second, and the token starts at offset 606. -/
def c4chunks : List (List Nat) :=
  [strBytes "panic:" ++ List.replicate 100 120,
   List.replicate 500 120 ++ strBytes "goroutine ", [122]]

/-- A 517-byte candidate block whose verification token lies at offset
507, used to drive the verification step directly. -/
def c4cand : List Nat := strBytes "panic: " ++ List.replicate 500 120 ++ goroutineToken

/-- Claim C4, counterexample: on `c4chunks` the scanner reaches Verified
although the verification token does not occur within the first 512
bytes of the candidate block — the check inspects the whole accumulated
candidate at the moment its length first exceeds 512, which here is 616
bytes — so "Verified only if the token appears within the first window
(512) bytes" fails on the code. -/
theorem C4_counterexample :
    (runScanner c4chunks).verified = true ∧
    bytesIndex goroutineToken ((runScanner c4chunks).panicText.take 512) = none := by
  decide

/-- Claim C4, amended: when further input arrives while the candidate
block is unverified and longer than 512 bytes, the scanner becomes
Verified exactly when the verification token occurs somewhere in the
whole accumulated candidate (which may extend beyond its first 512
bytes); when the token is absent from the accumulated candidate, the
block is rejected: the leading marker-length bytes are forwarded and the
remaining buffered bytes are re-scanned from the idle state, so every
buffered byte is released back into the ordinary forwarding path. -/
theorem C4_amended (p : List Nat) (v : Bool) (o buf : List Nat)
    (hv : v = false) (hp : 512 < p.length) (hbuf : buf ≠ []) :
    ((processInspect p v o buf).verified = true ↔ verifyPanic p = true) ∧
    (verifyPanic p = false →
      processInspect p v o buf =
        idleScan false (o ++ (p ++ buf).take panicHeader.length)
          ((p ++ buf).drop panicHeader.length)) ∧
    (processInspect p v o buf).out ++ (processInspect p v o buf).panicText =
      o ++ p ++ buf := by
  refine ⟨?_, ?_, processInspect_conserve p v o buf⟩ <;>
  · have hbe : ¬ buf.isEmpty = true := by simpa [List.isEmpty_iff] using hbuf
    have hpe : ¬ p.isEmpty = true := by
      rcases p with _ | _
      · simp at hp
      · simp
    unfold processInspect
    rw [if_neg hbe, if_neg hpe, if_pos ⟨hv, hp⟩]
    by_cases hvp : verifyPanic p
    · simp [hvp]
    · simp [hvp, idleScan_verified]

/-- Claim C4, witness for the amended statement: a 517-byte candidate
containing the token is verified when the next chunk arrives. -/
theorem C4_witness : (processInspect c4cand false [] [122]).verified = true :=
  (C4_amended c4cand false [] [122] rfl (by decide) (by decide)).1.mpr (by decide)

/-! ### Claim C5 -/

/-- Two chunks that split the single marker occurrence of the stream:
"pan" at the end of the first chunk, "ic: hi" starting the second. -/
def c5chunks : List (List Nat) := [strBytes "pan", strBytes "ic: hi"]

/-- Claim C5, counterexample: the joined stream contains exactly one
marker occurrence, split across the two chunks (neither chunk contains
the marker whole); the scanner never begins capturing — its candidate
buffer stays empty and every byte is forwarded as ordinary output — so
"a marker split across two chunks is still detected" fails on the code. -/
theorem C5_counterexample :
    bytesIndex panicHeader c5chunks.flatten = some 0 ∧
    bytesIndex panicHeader (strBytes "pan") = none ∧
    bytesIndex panicHeader (strBytes "ic: hi") = none ∧
    runScanner c5chunks = ⟨[], false, c5chunks.flatten⟩ := by decide

/-- Claim C5, amended: marker detection scans each delivered chunk
independently, so a marker occurrence is detected only when the marker
bytes lie whole within a single chunk; whenever no individual chunk
contains the marker — even if the concatenated stream does, because an
occurrence is split across chunk boundaries — no capture ever begins and
every byte is forwarded unchanged as ordinary output. -/
theorem C5_amended (chunks : List (List Nat))
    (h : ∀ ch ∈ chunks, bytesIndex panicHeader ch = none) :
    runScanner chunks = ⟨[], false, chunks.flatten⟩ :=
  runScanner_no_marker chunks h

/-- Claim C5, witness for the amended statement: on the split-marker
chunk pair, nothing is captured and all bytes are forwarded. -/
theorem C5_witness : runScanner c5chunks = ⟨[], false, c5chunks.flatten⟩ :=
  C5_amended c5chunks (by decide)

/-! ### Claim C6 -/

/-- A child writing marker-free output that exits with status 3. -/
def c6wit : WrapInput where
  handlerSet := true
  cookieKey := "k"
  cookieValue := "v"
  env := []
  exeOk := true
  startOk := true
  waitFailed := false
  exitStatus := 3
  chunks := [strBytes "stderr out"]

/-- Claim C6: a child that exits through the normal status-code path with
status N and whose error stream contains no marker text makes `Wrap`
return exactly N with no error, and the handler is never invoked. -/
theorem C6_exit_propagation (c : WrapInput) (h1 : c.handlerSet = true)
    (h2 : getenv c.env (effKey c) ≠ effVal c) (h3 : c.exeOk = true)
    (h4 : c.startOk = true) (h5 : c.waitFailed = false)
    (hm : bytesIndex panicHeader c.chunks.flatten = none) :
    (Wrap c).ret = c.exitStatus ∧ (Wrap c).handlerCalls = [] ∧
    (Wrap c).err = none := by
  have hch := chunk_no_marker_of_flatten c.chunks hm
  have hsc := runScanner_no_marker c.chunks hch
  by_cases h6 : c.exitStatus = 0
  · rw [Wrap_exit_zero c h1 h2 h3 h4 h5 h6]
    simp [h6]
  · have h7 : (runScanner c.chunks).panicText = [] := by rw [hsc]
    rw [Wrap_exit_clean c h1 h2 h3 h4 h5 h6 h7]
    simp

/-- Claim C6, witness: the marker-free run `c6wit` with exit status 3
returns 3, no error, and no handler invocation. -/
theorem C6_witness :
    (Wrap c6wit).ret = 3 ∧ (Wrap c6wit).handlerCalls = [] ∧
    (Wrap c6wit).err = none :=
  C6_exit_propagation c6wit (by decide) (by decide) (by decide) (by decide)
    (by decide) (by decide)

/-! ### Claim C7 -/

/-- A configuration whose cookie matches the environment but with no
handler supplied. -/
def c7cex : WrapInput where
  handlerSet := false
  cookieKey := "k"
  cookieValue := "v"
  env := [("k", "v")]
  exeOk := true
  startOk := true
  waitFailed := false
  exitStatus := 0
  chunks := []

/-- The same matched-cookie configuration with a handler supplied. -/
def c7wit : WrapInput where
  handlerSet := true
  cookieKey := "k"
  cookieValue := "v"
  env := [("k", "v")]
  exeOk := true
  startOk := true
  waitFailed := false
  exitStatus := 0
  chunks := []

/-- Claim C7, counterexample: with the identity-guard key mapped to the
configured value but no handler supplied, `Wrap` returns an error — the
nil-handler check precedes the identity guard — so "whenever the key
maps to the value, the entry point returns -1 with no error" fails on
the code as stated. -/
theorem C7_counterexample :
    getenv c7cex.env (effKey c7cex) = effVal c7cex ∧
    (Wrap c7cex).err ≠ none := by decide

/-- Claim C7, amended: provided a handler is supplied, whenever the
configured identity-guard key maps to the configured value the entry
point returns the child sentinel -1 with no error, immediately, without
spawning a child and without touching the handler or the error stream; a
mismatched value never selects the child path, and a missing variable
(which reads as the empty string and can never equal the effective
cookie value) never selects it either — any error on the mismatch path
arises from executable resolution, spawn, or wait, never from the guard. -/
theorem C7_amended (c : WrapInput) (h1 : c.handlerSet = true) :
    (getenv c.env (effKey c) = effVal c →
      Wrap c = ⟨-1, none, [], [], false, true⟩) ∧
    (getenv c.env (effKey c) ≠ effVal c →
      (Wrap c).wasChild = false ∧
      ((Wrap c).err = none ∨ (Wrap c).err = some GoErr.exeFailed ∨
        (Wrap c).err = some GoErr.startFailed ∨
        (Wrap c).err = some GoErr.waitFailed)) ∧
    (c.env.find? (fun p => p.1 = effKey c) = none →
      (Wrap c).wasChild = false) := by
  have main : getenv c.env (effKey c) ≠ effVal c →
      (Wrap c).wasChild = false ∧
      ((Wrap c).err = none ∨ (Wrap c).err = some GoErr.exeFailed ∨
        (Wrap c).err = some GoErr.startFailed ∨
        (Wrap c).err = some GoErr.waitFailed) := by
    intro h2
    by_cases h3 : c.exeOk = false
    · rw [Wrap_noExe c h1 h2 h3]; simp
    · have h3' := bool_ne_false _ h3
      by_cases h4 : c.startOk = false
      · rw [Wrap_noStart c h1 h2 h3' h4]; simp
      · have h4' := bool_ne_false _ h4
        by_cases h5 : c.waitFailed
        · rw [Wrap_waitFailed c h1 h2 h3' h4' h5]; simp
        · have h5' := bool_ne_true _ h5
          by_cases h6 : c.exitStatus = 0
          · rw [Wrap_exit_zero c h1 h2 h3' h4' h5' h6]; simp
          · by_cases h7 : (runScanner c.chunks).panicText = []
            · rw [Wrap_exit_clean c h1 h2 h3' h4' h5' h6 h7]; simp
            · rw [Wrap_exit_panic c h1 h2 h3' h4' h5' h6 h7]; simp
  refine ⟨fun h2 => Wrap_child c h1 h2, main, fun hf => ?_⟩
  have hmiss : getenv c.env (effKey c) = "" := by simp [getenv, hf]
  have hne : getenv c.env (effKey c) ≠ effVal c := by
    rw [hmiss]
    exact fun hc => effVal_ne_empty c hc.symm
  exact (main hne).1

/-- Claim C7, witness for the amended statement: with a handler supplied
and the cookie matched, `Wrap` returns the child sentinel immediately. -/
theorem C7_witness : Wrap c7wit = ⟨-1, none, [], [], false, true⟩ :=
  (C7_amended c7wit (by decide)).1 (by decide)

/-! ### Claim C8 -/

/-- A configuration with no handler supplied. -/
def c8a : WrapInput where
  handlerSet := false
  cookieKey := "k"
  cookieValue := "v"
  env := []
  exeOk := true
  startOk := true
  waitFailed := false
  exitStatus := 0
  chunks := []

/-- A valid configuration whose child process cannot be created. -/
def c8b : WrapInput where
  handlerSet := true
  cookieKey := "k"
  cookieValue := "v"
  env := []
  exeOk := true
  startOk := false
  waitFailed := false
  exitStatus := 0
  chunks := []

/-- Claim C8: with no handler supplied, or when the operating system
refuses to create the child process, `Wrap` returns an error
synchronously — no child process is started (or left running) and the
handler is never invoked on these paths, with nothing written to the
real error stream. -/
theorem C8_sync_errors (c : WrapInput) :
    (c.handlerSet = false →
      (Wrap c).err = some GoErr.handlerNotSet ∧ (Wrap c).spawned = false ∧
      (Wrap c).handlerCalls = [] ∧ (Wrap c).stderrOut = []) ∧
    (c.handlerSet = true → getenv c.env (effKey c) ≠ effVal c →
      c.exeOk = true → c.startOk = false →
      (Wrap c).err = some GoErr.startFailed ∧ (Wrap c).spawned = false ∧
      (Wrap c).handlerCalls = [] ∧ (Wrap c).stderrOut = []) := by
  constructor
  · intro h
    rw [Wrap_noHandler c h]
    simp
  · intro h1 h2 h3 h4
    rw [Wrap_noStart c h1 h2 h3 h4]
    simp

/-- Claim C8, witness: on `c8a` (no handler) and `c8b` (spawn refused)
the corresponding synchronous errors are returned with no child and no
handler invocation. -/
theorem C8_witness :
    ((Wrap c8a).err = some GoErr.handlerNotSet ∧ (Wrap c8a).spawned = false ∧
      (Wrap c8a).handlerCalls = [] ∧ (Wrap c8a).stderrOut = []) ∧
    ((Wrap c8b).err = some GoErr.startFailed ∧ (Wrap c8b).spawned = false ∧
      (Wrap c8b).handlerCalls = [] ∧ (Wrap c8b).stderrOut = []) :=
  ⟨(C8_sync_errors c8a).1 (by decide),
   (C8_sync_errors c8b).2 (by decide) (by decide) (by decide) (by decide)⟩

/-! ### Claim C9 -/

/-- Claim C9, counterexample: an interruption signal received while the
child runs is consumed by the supervising process's signal loop without
being sent to the child — the forwarded-signal list is empty although a
signal arrived — so "every interruption-style signal is forwarded to the
child" fails on the code (the loop body for a received signal is empty;
no call sends anything to the child process). -/
theorem C9_counterexample :
    (signalLoop [SigEvent.interrupt, SigEvent.childDone]).1 = [] ∧
    [SigEvent.interrupt, SigEvent.childDone].count SigEvent.interrupt = 1 := by
  decide

/-- Claim C9, amended: while the child runs, interruption-style signals
received by the supervising process are captured and discarded: the
supervisor sends nothing to the child, takes no other action, and in
particular does not terminate itself; the capture loop returns once the
child has exited and the stream is drained. -/
theorem C9_amended (evs : List SigEvent) : signalLoop evs = ([], false) := by
  induction evs with
  | nil => rfl
  | cons e rest ih =>
    cases e
    · exact ih
    · rfl

/-- Claim C9, witness: the amended statement evaluated on a concrete
event sequence with two interrupts before the child exits. -/
theorem C9_witness :
    signalLoop [SigEvent.interrupt, SigEvent.interrupt, SigEvent.childDone] =
      ([], false) :=
  C9_amended [SigEvent.interrupt, SigEvent.interrupt, SigEvent.childDone]

/-! ### Claim C10 -/

/-- Claim C10: the diagnostic marker is the literal byte string "panic:"
and the verification token is the literal byte string "goroutine ", and
`verifyPanic` returns true exactly when its input contains "goroutine "
as a contiguous substring anywhere. -/
theorem C10_marker_and_token :
    panicHeader = [112, 97, 110, 105, 99, 58] ∧
    goroutineToken = [103, 111, 114, 111, 117, 116, 105, 110, 101, 32] ∧
    panicHeader = strBytes "panic:" ∧
    goroutineToken = strBytes "goroutine " ∧
    ∀ p : List Nat, verifyPanic p = true ↔ goroutineToken <:+: p := by
  exact ⟨by decide, by decide, rfl, rfl, verifyPanic_eq_true_iff⟩

/-- Claim C10, witness: `verifyPanic` accepts a concrete byte string
containing the token in the middle. -/
theorem C10_witness :
    goroutineToken <:+: strBytes "] goroutine 1 [running" :=
  (C10_marker_and_token.2.2.2.2 (strBytes "] goroutine 1 [running")).mp (by decide)

end Panicwrap
